import Mathlib

/-!
# Verification of the band-prop wireless LED firmware

Shallow embedding of the two Arduino sketches of this repository:

* the receiver (`pico_receiver_radiohead.ino`, `src/unnamed/part_000`), whose
  main `loop` fuses radio packets, a button interrupt and wall-clock timeouts
  into a mode / sequence state machine driving a NeoPixel strip, and
* the transmitter (`src/Arduino_Uno_R3_Remote_RadioHead_20250901.ino`), whose
  `loop` debounces two buttons and emits heartbeat packets.

Machine integers are modelled as `Nat` with explicit `% 2 ^ w` where wraparound
is possible; `unsigned long` timestamps are `Nat` (the firmware only ever
subtracts a stored `millis()` sample from a later `millis()` sample, so in the
non-wrapping regime `uint32` subtraction coincides with truncated `Nat`
subtraction).  Hardware sinks that feed nothing back into the control logic
(the OLED display, `lastRSSI`, the pixel colour buffer, the PRNG index used by
`animationSparkle`) are abstracted away; the two coalescing flags `frameDirty`
and `stripIsOff`, which the control flow does read, are modelled exactly.
Each `loop` iteration is modelled as one tick at a single time `now`.
-/

/-- Wire packet, `struct RadioPacket` (identical on both ends):
`uint32_t packetCounter; uint8_t sequenceId;`. -/
structure RadioPacket where
  packetCounter : Nat
  sequenceId : Nat
deriving DecidableEq, Repr

namespace Receiver

/-- `#define NUM_LEDS 120` -/
def NUM_LEDS : Nat := 120

/-- `#define PACKET_TIMEOUT_MS 3000` -/
def PACKET_TIMEOUT_MS : Nat := 3000

/-- `#define STRIP_TIMEOUT_MS 1800000UL` (30 minutes) -/
def STRIP_TIMEOUT_MS : Nat := 1800000

/-- The receiver's mutable globals that the main `loop` reads or writes
(`inTestMode`, `inDiagnosticMode`, `currentSequence`, `animationStep`,
`lastPacketTime`, `lastActiveAnimationTime`, `lastAnimationTime`,
`buttonPressFlag`, `buttonPressTime`, `frameDirty`, `stripIsOff`, and the
`static int pos, dir` pair local to `animationCylon`). -/
structure RxState where
  inTestMode : Bool
  inDiagnosticMode : Bool
  currentSequence : Nat
  animationStep : Nat
  lastPacketTime : Nat
  lastActiveAnimationTime : Nat
  lastAnimationTime : Nat
  buttonPressFlag : Bool
  buttonPressTime : Nat
  frameDirty : Bool
  stripIsOff : Bool
  cylonPos : Int
  cylonDir : Int
deriving DecidableEq, Repr

/-- `markDirty(): frameDirty = true; stripIsOff = false;` -/
def markDirty (s : RxState) : RxState :=
  { s with frameDirty := true, stripIsOff := false }

/-- `markAllOff(): stripIsOff = true; frameDirty = true;` -/
def markAllOff (s : RxState) : RxState :=
  { s with stripIsOff := true, frameDirty := true }

/-- `showIfDirty(): if (frameDirty) { strip.show(); frameDirty = false; }`.
The boolean result records whether `strip.show()` (a hardware flush) ran. -/
def showIfDirty (s : RxState) : RxState × Bool :=
  if s.frameDirty then ({ s with frameDirty := false }, true) else (s, false)

/-- `animationOff(): if (!stripIsOff) { strip.clear(); markAllOff(); }` -/
def animationOff (s : RxState) : RxState :=
  if s.stripIsOff then s else markAllOff s

/-- `fadeAll(amount)`: per-pixel arithmetic on the colour buffer followed by
`markDirty()`; only the flag effect is visible to the control logic. -/
def fadeAll (s : RxState) : RxState := markDirty s

/-- `animationRainbow()`: 16 ms pacing gate, then `animationStep++`
(`uint16_t` wraparound), pixel writes, `markDirty()`. -/
def animationRainbow (now : Nat) (s : RxState) : RxState :=
  if now - s.lastAnimationTime < 16 then s
  else
    markDirty { s with lastAnimationTime := now,
                       animationStep := (s.animationStep + 1) % 65536 }

/-- `animationChase()`: pacing gate, `fadeAll(200)`, one pixel write,
`animationStep = (animationStep + 1) % strip.numPixels()`, `markDirty()`. -/
def animationChase (now : Nat) (s : RxState) : RxState :=
  if now - s.lastAnimationTime < 16 then s
  else
    markDirty (fadeAll { s with lastAnimationTime := now,
                                animationStep := (s.animationStep + 1) % NUM_LEDS })

/-- `animationWipe()`: pacing gate, one pixel write, `animationStep++`
(`uint16_t`), reset to `0` once `animationStep >= 2 * n`, `markDirty()`. -/
def animationWipe (now : Nat) (s : RxState) : RxState :=
  if now - s.lastAnimationTime < 16 then s
  else
    let step := (s.animationStep + 1) % 65536
    markDirty { s with lastAnimationTime := now,
                       animationStep := if 2 * NUM_LEDS ≤ step then 0 else step }

/-- `animationSparkle()`: pacing gate, `fadeAll(100)`, one random pixel write,
`markDirty()`; `animationStep` is untouched. -/
def animationSparkle (now : Nat) (s : RxState) : RxState :=
  if now - s.lastAnimationTime < 16 then s
  else markDirty (fadeAll { s with lastAnimationTime := now })

/-- `animationCylon()`: pacing gate, `fadeAll(40)`, one pixel write,
`pos += dir`, direction flip at either end, `markDirty()`. -/
def animationCylon (now : Nat) (s : RxState) : RxState :=
  if now - s.lastAnimationTime < 16 then s
  else
    let pos := s.cylonPos + s.cylonDir
    let dir := if pos ≤ 0 ∨ (NUM_LEDS : Int) - 1 ≤ pos then -s.cylonDir else s.cylonDir
    markDirty (fadeAll { s with lastAnimationTime := now, cylonPos := pos, cylonDir := dir })

/-- `runSequence()`: the `switch (currentSequence)` dispatch table,
`default` falling through to `animationOff()`. -/
def runSequence (now : Nat) (s : RxState) : RxState :=
  match s.currentSequence with
  | 0 => animationOff s
  | 1 => animationRainbow now s
  | 2 => animationChase now s
  | 3 => animationWipe now s
  | 4 => animationSparkle now s
  | 5 => animationCylon now s
  | _ => animationOff s

/-- Step 1 of `loop()`: radio input.  `pkt = some p` models
`driver.available() && driver.recv(...)` delivering packet `p` this tick. -/
def handleRadio (now : Nat) (pkt : Option RadioPacket) (s : RxState) : RxState :=
  match pkt with
  | none => s
  | some p =>
    let s := { s with lastPacketTime := now }
    if s.currentSequence ≠ p.sequenceId then
      let s := markDirty { s with currentSequence := p.sequenceId, animationStep := 0 }
      if 0 < s.currentSequence then { s with lastActiveAnimationTime := now } else s
    else s

/-- Step 2 of `loop()`: the no-signal timeout and the 30-minute idle cutoff. -/
def handleTimeouts (now : Nat) (s : RxState) : RxState :=
  let s :=
    if PACKET_TIMEOUT_MS < now - s.lastPacketTime then
      if s.currentSequence ≠ 0 then { s with currentSequence := 0, animationStep := 0 } else s
    else s
  if s.currentSequence ≠ 0 ∧ STRIP_TIMEOUT_MS < now - s.lastActiveAnimationTime then
    { s with currentSequence := 0, animationStep := 0 }
  else s

/-- Step 3 of `loop()`: button gesture handling.  `buttonLow = true` models
`digitalRead(CONFIG_BUTTON_PIN) == LOW` (button still held). -/
def handleButton (now : Nat) (buttonLow : Bool) (s : RxState) : RxState :=
  if s.buttonPressFlag then
    if buttonLow then
      if s.inDiagnosticMode = false ∧ 5000 ≤ now - s.buttonPressTime then
        { s with inDiagnosticMode := true, inTestMode := false,
                 currentSequence := 0, buttonPressFlag := false }
      else s
    else
      let s' :=
        if s.inDiagnosticMode then { s with inDiagnosticMode := false }
        else { s with inTestMode := !s.inTestMode, currentSequence := 0 }
      { s' with animationStep := 0, buttonPressFlag := false }
  else s

/-- Step 4 of `loop()`: the rendering dispatch
`if (inDiagnosticMode) animationOff(); else if (inTestMode) animationRainbow();
else runSequence();`. -/
def renderLEDs (now : Nat) (s : RxState) : RxState :=
  if s.inDiagnosticMode then animationOff s
  else if s.inTestMode then animationRainbow now s
  else runSequence now s

/-- Input of one `loop()` iteration: the current `millis()` sample, the packet
delivered by the radio (if any), and the raw button level. -/
structure TickIn where
  now : Nat
  packet : Option RadioPacket
  buttonLow : Bool
deriving DecidableEq, Repr

/-- One full iteration of `loop()` (steps 1-4 and the flush; step 5, the
throttled OLED redraw, is output-only).  The boolean records whether
`strip.show()` ran this tick. -/
def loop (i : TickIn) (s : RxState) : RxState × Bool :=
  showIfDirty (renderLEDs i.now (handleButton i.now i.buttonLow
    (handleTimeouts i.now (handleRadio i.now i.packet s))))

/-- `button_isr()` together with its `static unsigned long last_interrupt_time`:
the 200 ms re-arm window, then `buttonPressFlag = true; buttonPressTime = t;`. -/
structure SysState where
  rx : RxState
  lastInterruptTime : Nat
deriving DecidableEq, Repr

def button_isr (t : Nat) (s : SysState) : SysState :=
  let rx :=
    if 200 < t - s.lastInterruptTime then
      { s.rx with buttonPressFlag := true, buttonPressTime := t }
    else s.rx
  { rx := rx, lastInterruptTime := t }

/-- An event of the receiver after `setup()`: either one main-loop iteration or
one firing of the falling-edge button interrupt at time `t`. -/
inductive Ev where
  | tick (i : TickIn)
  | press (t : Nat)
deriving DecidableEq, Repr

def evStep (s : SysState) (e : Ev) : SysState :=
  match e with
  | .tick i => { s with rx := (loop i s.rx).1 }
  | .press t => button_isr t s

/-- The global state right after `setup()` returns: all globals hold their
initialisers, and `setup()` has executed `strip.clear(); markAllOff();
showIfDirty();`, leaving `stripIsOff = true`, `frameDirty = false`. -/
def initRx : RxState :=
  { inTestMode := false, inDiagnosticMode := false, currentSequence := 0,
    animationStep := 0, lastPacketTime := 0, lastActiveAnimationTime := 0,
    lastAnimationTime := 0, buttonPressFlag := false, buttonPressTime := 0,
    frameDirty := false, stripIsOff := true, cylonPos := 0, cylonDir := 1 }

def initSys : SysState := { rx := initRx, lastInterruptTime := 0 }

def runEvents (es : List Ev) : SysState := es.foldl evStep initSys

/-- A state of the main control loop is reachable when some interleaving of
loop iterations and interrupt firings produces it from the post-`setup` state. -/
def Reachable (s : SysState) : Prop := ∃ es : List Ev, runEvents es = s

/-- Folding a list of loop iterations (no interrupt in between) over a state. -/
def runTicks (tr : List TickIn) (s : RxState) : RxState :=
  tr.foldl (fun s i => (loop i s).1) s

/-! ## The boot-only Setup sub-mode (`handleSetupMode`) and EEPROM helpers -/

/-- EEPROM contents, one byte per address; `savePropID(id)` is
`EEPROM.write(0, id); EEPROM.commit();`. -/
def savePropID (eeprom : Nat → Nat) (id : Nat) : Nat → Nat :=
  fun a => if a = 0 then id % 256 else eeprom a

/-- `loadPropID()`: read byte 0; an out-of-range value is corrected to `1` and
rewritten.  Returns the loaded id together with the (possibly rewritten)
EEPROM contents. -/
def loadPropID (eeprom : Nat → Nat) : Nat × (Nat → Nat) :=
  let id := eeprom 0
  if id < 1 ∨ 18 < id then (1, savePropID eeprom 1) else (id, eeprom)

/-- The locals of `handleSetupMode`'s `while (true)` loop that survive an
iteration: `tempPropID`, `pressStartTime`, `lastIsPressed`. -/
structure SetupState where
  tempPropID : Nat
  pressStartTime : Nat
  lastIsPressed : Bool
deriving DecidableEq, Repr

/-- Outcome of one iteration of the Setup loop: either continue polling, or
save `tempPropID` (via `savePropID`) and reboot (`watchdog_reboot`). -/
inductive SetupResult where
  | continue (st : SetupState)
  | saveAndReboot (id : Nat)
deriving DecidableEq, Repr

/-- The candidate identifier carried by a Setup-loop outcome. -/
def setupResultID : SetupResult → Nat
  | .continue st => st.tempPropID
  | .saveAndReboot id => id

/-- One iteration of `handleSetupMode`'s loop at time `now` with raw button
level `isPressed` (`digitalRead == LOW`): redraw (output-only), record the
press edge, increment `tempPropID` with `18 → 1` wraparound on the release
edge, and save-and-reboot once the button has been held for more than
3000 ms. -/
def setupTick (now : Nat) (isPressed : Bool) (st : SetupState) : SetupResult :=
  let pressStartTime :=
    if isPressed ∧ st.lastIsPressed = false then now else st.pressStartTime
  let tempPropID :=
    if isPressed = false ∧ st.lastIsPressed then
      let t := (st.tempPropID + 1) % 256
      if 18 < t then 1 else t
    else st.tempPropID
  if isPressed ∧ 3000 < now - pressStartTime then .saveAndReboot tempPropID
  else .continue ⟨tempPropID, pressStartTime, isPressed⟩

end Receiver

namespace Remote

/-- `#define HEARTBEAT_INTERVAL 500` -/
def HEARTBEAT_INTERVAL : Nat := 500

/-- `#define DEBOUNCE_DELAY_MS 50` -/
def DEBOUNCE_DELAY_MS : Nat := 50

/-- One button's debounce triple (`cycleButtonState`/`lastCycleButtonState`/
`lastCycleDebounceTime`, and likewise for the off button).  `true` models
`HIGH` (released, pull-up), `false` models `LOW` (pressed). -/
structure DebounceState where
  buttonState : Bool
  lastButtonState : Bool
  lastDebounceTime : Nat
deriving DecidableEq, Repr

/-- `checkCycleButtonPress` / `checkOffButtonPress` (identical logic): returns
whether a debounced press fired this tick, plus the updated debounce state. -/
def checkButtonPress (now : Nat) (reading : Bool) (d : DebounceState) :
    Bool × DebounceState :=
  let lastDebounceTime :=
    if reading ≠ d.lastButtonState then now else d.lastDebounceTime
  if DEBOUNCE_DELAY_MS < now - lastDebounceTime then
    if reading ≠ d.buttonState then
      (!reading,
       { buttonState := reading, lastButtonState := reading,
         lastDebounceTime := lastDebounceTime })
    else (false, { d with lastButtonState := reading, lastDebounceTime := lastDebounceTime })
  else (false, { d with lastButtonState := reading, lastDebounceTime := lastDebounceTime })

/-- The transmitter's mutable globals feeding its control flow. -/
structure TxState where
  currentSequence : Nat
  lastHeartbeatTime : Nat
  packetCounter : Nat
  cycleDebounce : DebounceState
  offDebounce : DebounceState
deriving DecidableEq, Repr

/-- `transmitSequence()`: `packet.sequenceId = currentSequence;
packet.packetCounter = ++packetCounter;` (`uint32_t` increment), then
`driver.send`.  Returns the updated state and the packet put on the air. -/
def transmitSequence (s : TxState) : TxState × RadioPacket :=
  let pc := (s.packetCounter + 1) % 2 ^ 32
  ({ s with packetCounter := pc },
   { packetCounter := pc, sequenceId := s.currentSequence })

/-- Input of one transmitter `loop()` iteration: the `millis()` sample and the
raw levels of the cycle and off buttons (`true` = `HIGH`). -/
structure TxTickIn where
  now : Nat
  cycleReading : Bool
  offReading : Bool
deriving DecidableEq, Repr

/-- One iteration of the transmitter's `loop()` (LCD backlight and built-in
LED handling are output-only and omitted).  Returns the updated state and the
packets transmitted this tick, in order. -/
def loop (i : TxTickIn) (s : TxState) : TxState × List RadioPacket :=
  let cycle := checkButtonPress i.now i.cycleReading s.cycleDebounce
  let s := { s with cycleDebounce := cycle.2 }
  let (s, out1) :=
    if cycle.1 then
      let seq := (s.currentSequence + 1) % 256
      let seq := if 5 < seq then 0 else seq
      let (s', p) := transmitSequence { s with currentSequence := seq }
      ({ s' with lastHeartbeatTime := i.now }, [p])
    else (s, [])
  let off := checkButtonPress i.now i.offReading s.offDebounce
  let s := { s with offDebounce := off.2 }
  let (s, out2) :=
    if off.1 ∧ s.currentSequence ≠ 0 then
      let (s', p) := transmitSequence { s with currentSequence := 0 }
      ({ s' with lastHeartbeatTime := i.now }, [p])
    else (s, [])
  let (s, out3) :=
    if HEARTBEAT_INTERVAL ≤ i.now - s.lastHeartbeatTime then
      let (s', p) := transmitSequence { s with lastHeartbeatTime := i.now }
      (s', [p])
    else (s, [])
  (s, out1 ++ out2 ++ out3)

end Remote

/-! ## Claim C9 (corrected) -/

namespace Remote

/-- C9, counterexample to the claim as stated.  At 1100 ms the off button's
debouncer confirms a press (reading LOW, stable past the 50 ms window,
differing from the stored HIGH state), yet because `currentSequence` is
already `0` the tick transmits no packet at all (`if (currentSequence != 0)`
guards the transmission, and the 500 ms heartbeat is not due). -/
theorem c9_counterexample :
    (checkButtonPress 1100 false ⟨true, false, 1040⟩).1 = true ∧
    (loop ⟨1100, true, false⟩
      { currentSequence := 0, lastHeartbeatTime := 1000, packetCounter := 5,
        cycleDebounce := ⟨true, true, 0⟩,
        offDebounce := ⟨true, false, 1040⟩ }).2 = [] := by
  decide

/-- C9, amended: every debounced cycle-button press, every debounced
off-button press made while the sequence is non-zero, and every elapse of the
500 ms heartbeat produce exactly one outbound packet carrying the current
(post-update) sequence choice; an off-button press while the sequence is
already `0` produces no packet (and a fired button resets the heartbeat
window, so no second packet follows in the same tick). -/
theorem c9_amended :
    (∀ (i : TxTickIn) (s : TxState),
      (checkButtonPress i.now i.cycleReading s.cycleDebounce).1 = true →
      (checkButtonPress i.now i.offReading s.offDebounce).1 = false →
      (loop i s).2 = [⟨(s.packetCounter + 1) % 2 ^ 32,
        if 5 < (s.currentSequence + 1) % 256 then 0
        else (s.currentSequence + 1) % 256⟩]) ∧
    (∀ (i : TxTickIn) (s : TxState),
      (checkButtonPress i.now i.cycleReading s.cycleDebounce).1 = false →
      (checkButtonPress i.now i.offReading s.offDebounce).1 = true →
      s.currentSequence ≠ 0 →
      (loop i s).2 = [⟨(s.packetCounter + 1) % 2 ^ 32, 0⟩]) ∧
    (∀ (i : TxTickIn) (s : TxState),
      (checkButtonPress i.now i.cycleReading s.cycleDebounce).1 = false →
      (checkButtonPress i.now i.offReading s.offDebounce).1 = true →
      s.currentSequence = 0 →
      i.now - s.lastHeartbeatTime < HEARTBEAT_INTERVAL →
      (loop i s).2 = []) ∧
    (∀ (i : TxTickIn) (s : TxState),
      (checkButtonPress i.now i.cycleReading s.cycleDebounce).1 = false →
      (checkButtonPress i.now i.offReading s.offDebounce).1 = false →
      HEARTBEAT_INTERVAL ≤ i.now - s.lastHeartbeatTime →
      (loop i s).2 = [⟨(s.packetCounter + 1) % 2 ^ 32, s.currentSequence⟩]) ∧
    (∀ (i : TxTickIn) (s : TxState),
      (checkButtonPress i.now i.cycleReading s.cycleDebounce).1 = false →
      (checkButtonPress i.now i.offReading s.offDebounce).1 = false →
      i.now - s.lastHeartbeatTime < HEARTBEAT_INTERVAL →
      (loop i s).2 = []) := by
  refine ⟨?_, ?_, ?_, ?_, ?_⟩
  · intro i s hc ho
    simp [loop, transmitSequence, hc, ho, HEARTBEAT_INTERVAL]
  · intro i s hc ho hnz
    simp [loop, transmitSequence, hc, ho, hnz, HEARTBEAT_INTERVAL]
  · intro i s hc ho hz hhb
    simp only [HEARTBEAT_INTERVAL] at hhb
    simp [loop, transmitSequence, hc, ho, hz, HEARTBEAT_INTERVAL,
      Nat.not_le.mpr hhb]
  · intro i s hc ho hhb
    simp only [HEARTBEAT_INTERVAL] at hhb
    simp [loop, transmitSequence, hc, ho, HEARTBEAT_INTERVAL, hhb]
  · intro i s hc ho hhb
    simp only [HEARTBEAT_INTERVAL] at hhb
    simp [loop, transmitSequence, hc, ho, HEARTBEAT_INTERVAL,
      Nat.not_le.mpr hhb]

/-- Witness for C9's amended theorem at concrete inputs: a cycle press on
sequence 2 sends exactly `[⟨6, 3⟩]`; an off press on sequence 0 with the
heartbeat not due sends nothing; a quiet tick with the heartbeat due sends
exactly one packet with the unchanged sequence. -/
theorem c9_amended_witness :
    (loop ⟨1100, false, true⟩
      { currentSequence := 2, lastHeartbeatTime := 900, packetCounter := 5,
        cycleDebounce := ⟨true, false, 40⟩,
        offDebounce := ⟨true, true, 0⟩ }).2 = [⟨6, 3⟩] ∧
    (loop ⟨1100, true, false⟩
      { currentSequence := 0, lastHeartbeatTime := 1000, packetCounter := 5,
        cycleDebounce := ⟨true, true, 0⟩,
        offDebounce := ⟨true, false, 1040⟩ }).2 = [] ∧
    (loop ⟨1600, true, true⟩
      { currentSequence := 4, lastHeartbeatTime := 1000, packetCounter := 7,
        cycleDebounce := ⟨true, true, 0⟩,
        offDebounce := ⟨true, true, 0⟩ }).2 = [⟨8, 4⟩] :=
  ⟨by have h := c9_amended.1 ⟨1100, false, true⟩
        { currentSequence := 2, lastHeartbeatTime := 900, packetCounter := 5,
          cycleDebounce := ⟨true, false, 40⟩, offDebounce := ⟨true, true, 0⟩ }
        (by decide) (by decide)
      simpa using h,
   c9_amended.2.2.1 ⟨1100, true, false⟩
      { currentSequence := 0, lastHeartbeatTime := 1000, packetCounter := 5,
        cycleDebounce := ⟨true, true, 0⟩, offDebounce := ⟨true, false, 1040⟩ }
      (by decide) (by decide) rfl (by decide),
   by have h := c9_amended.2.2.2.1 ⟨1600, true, true⟩
        { currentSequence := 4, lastHeartbeatTime := 1000, packetCounter := 7,
          cycleDebounce := ⟨true, true, 0⟩, offDebounce := ⟨true, true, 0⟩ }
        (by decide) (by decide) (by decide)
      simpa using h⟩

end Remote

/-! ## Preservation lemmas for the receiver's loop phases -/

namespace Receiver

lemma handleRadio_ctl (now : Nat) (pkt : Option RadioPacket) (s : RxState) :
    (handleRadio now pkt s).inTestMode = s.inTestMode ∧
    (handleRadio now pkt s).inDiagnosticMode = s.inDiagnosticMode ∧
    (handleRadio now pkt s).buttonPressFlag = s.buttonPressFlag ∧
    (handleRadio now pkt s).buttonPressTime = s.buttonPressTime := by
  cases pkt
  · simp [handleRadio]
  · simp only [handleRadio, markDirty]
    split_ifs <;> simp

lemma handleTimeouts_ctl (now : Nat) (s : RxState) :
    (handleTimeouts now s).inTestMode = s.inTestMode ∧
    (handleTimeouts now s).inDiagnosticMode = s.inDiagnosticMode ∧
    (handleTimeouts now s).buttonPressFlag = s.buttonPressFlag ∧
    (handleTimeouts now s).buttonPressTime = s.buttonPressTime ∧
    (handleTimeouts now s).lastPacketTime = s.lastPacketTime ∧
    (handleTimeouts now s).lastActiveAnimationTime = s.lastActiveAnimationTime ∧
    (handleTimeouts now s).frameDirty = s.frameDirty ∧
    (handleTimeouts now s).stripIsOff = s.stripIsOff := by
  simp only [handleTimeouts]
  split_ifs <;> simp

lemma renderLEDs_ctl (now : Nat) (s : RxState) :
    (renderLEDs now s).inTestMode = s.inTestMode ∧
    (renderLEDs now s).inDiagnosticMode = s.inDiagnosticMode ∧
    (renderLEDs now s).currentSequence = s.currentSequence ∧
    (renderLEDs now s).buttonPressFlag = s.buttonPressFlag ∧
    (renderLEDs now s).buttonPressTime = s.buttonPressTime ∧
    (renderLEDs now s).lastPacketTime = s.lastPacketTime ∧
    (renderLEDs now s).lastActiveAnimationTime = s.lastActiveAnimationTime := by
  simp only [renderLEDs, runSequence, animationOff, animationRainbow, animationChase,
    animationWipe, animationSparkle, animationCylon, fadeAll, markDirty, markAllOff]
  split_ifs <;> (try split) <;> (try split_ifs) <;> simp

lemma showIfDirty_fst (s : RxState) :
    (showIfDirty s).1 = { s with frameDirty := false } := by
  simp only [showIfDirty]
  split_ifs with h
  · rfl
  · cases s; simp_all

lemma showIfDirty_snd (s : RxState) : (showIfDirty s).2 = s.frameDirty := by
  simp only [showIfDirty]
  split_ifs with h <;> simp [h]

lemma handleButton_seq_zero (now : Nat) (b : Bool) (s : RxState)
    (h : s.currentSequence = 0) : (handleButton now b s).currentSequence = 0 := by
  simp only [handleButton]
  split_ifs <;> simp [h]

lemma handleTimeouts_seq_zero (now : Nat) (s : RxState) (h : s.currentSequence = 0) :
    (handleTimeouts now s).currentSequence = 0 := by
  simp only [handleTimeouts]
  split_ifs <;> simp_all

lemma handleTimeouts_forced (now : Nat) (s : RxState)
    (h : PACKET_TIMEOUT_MS < now - s.lastPacketTime) :
    (handleTimeouts now s).currentSequence = 0 := by
  simp only [handleTimeouts]
  split_ifs <;> simp_all

/-- With the sequence already `0` and no packet delivered, a whole loop
iteration keeps the sequence at `0` (no phase can set it non-zero). -/
lemma loop_seq_zero (i : TickIn) (s : RxState) (hp : i.packet = none)
    (h0 : s.currentSequence = 0) : (loop i s).1.currentSequence = 0 := by
  have hb := handleButton_seq_zero i.now i.buttonLow (handleTimeouts i.now s)
    (handleTimeouts_seq_zero i.now s h0)
  have hr := (renderLEDs_ctl i.now
    (handleButton i.now i.buttonLow (handleTimeouts i.now s))).2.2.1
  simp only [loop, hp, handleRadio, showIfDirty_fst]
  simp [hr, hb]

/-- Once the no-signal window has expired, a packet-free loop iteration forces
the sequence to `0` whatever the rest of the state is. -/
lemma loop_timeout_forces (i : TickIn) (s : RxState) (hp : i.packet = none)
    (h : PACKET_TIMEOUT_MS < i.now - s.lastPacketTime) :
    (loop i s).1.currentSequence = 0 := by
  have hb := handleButton_seq_zero i.now i.buttonLow (handleTimeouts i.now s)
    (handleTimeouts_forced i.now s h)
  have hr := (renderLEDs_ctl i.now
    (handleButton i.now i.buttonLow (handleTimeouts i.now s))).2.2.1
  simp only [loop, hp, handleRadio, showIfDirty_fst]
  simp [hr, hb]

lemma runTicks_seq_zero (tr : List TickIn) (s : RxState)
    (h0 : s.currentSequence = 0) (htr : ∀ j ∈ tr, j.packet = none) :
    (runTicks tr s).currentSequence = 0 := by
  induction tr generalizing s with
  | nil => simpa [runTicks] using h0
  | cons j tr ih =>
    simp only [runTicks, List.foldl_cons]
    exact ih ((loop j s).1) (loop_seq_zero j s (htr j (by simp)) h0)
      (fun k hk => htr k (by simp [hk]))

/-! ## Claim C1 (corrected) -/

/-- C1, counterexample to the claim as stated.  After the packet at
`t0 = 100`, the tick at `3100 = t0 + 3000` is the first main-loop tick at or
after `t0 + 3000 ms`, yet `currentSequence` is NOT forced to `0` there: the
code's comparison `millis() - lastPacketTime > PACKET_TIMEOUT_MS` is strict,
so exactly 3000 elapsed milliseconds do not trigger the no-signal timeout. -/
theorem c1_counterexample :
    (runEvents [.tick ⟨100, some ⟨1, 2⟩, false⟩]).rx.lastPacketTime = 100 ∧
    (runEvents [.tick ⟨100, some ⟨1, 2⟩, false⟩]).rx.currentSequence = 2 ∧
    (runEvents [.tick ⟨100, some ⟨1, 2⟩, false⟩,
                .tick ⟨3100, none, false⟩]).rx.currentSequence = 2 := by
  decide

/-- C1, amended: if no further packet is received, `currentSequence` is forced
to `0` at every main-loop tick STRICTLY more than 3000 ms after the last
packet time `t0` (in particular at the first such tick), idempotently if
already zero, and it remains `0` at every subsequent packet-free tick. -/
theorem c1_amended (s : RxState) (i : TickIn) (tr : List TickIn)
    (hp : i.packet = none) (ht : PACKET_TIMEOUT_MS < i.now - s.lastPacketTime)
    (htr : ∀ j ∈ tr, j.packet = none) :
    (loop i s).1.currentSequence = 0 ∧
    (runTicks tr (loop i s).1).currentSequence = 0 := by
  refine ⟨loop_timeout_forces i s hp ht, ?_⟩
  exact runTicks_seq_zero tr _ (loop_timeout_forces i s hp ht) htr

/-- Witness for C1's amended theorem at a concrete input: a state fresh out of
`setup()` (`lastPacketTime = 0`), a tick at 3001 ms, then one at 4000 ms. -/
theorem c1_amended_witness :
    (loop ⟨3001, none, false⟩ initRx).1.currentSequence = 0 ∧
    (runTicks [⟨4000, none, true⟩]
      (loop ⟨3001, none, false⟩ initRx).1).currentSequence = 0 :=
  c1_amended initRx ⟨3001, none, false⟩ [⟨4000, none, true⟩] rfl
    (by decide) (by decide)

lemma handleButton_noflag (now : Nat) (b : Bool) (s : RxState)
    (hf : s.buttonPressFlag = false) : handleButton now b s = s := by
  simp [handleButton, hf]

/-- A loop iteration with no pending press event leaves the two mode flags
untouched and the press flag clear. -/
lemma loop_consumed (i : TickIn) (s : RxState) (hf : s.buttonPressFlag = false) :
    (loop i s).1.inTestMode = s.inTestMode ∧
    (loop i s).1.inDiagnosticMode = s.inDiagnosticMode ∧
    (loop i s).1.buttonPressFlag = false := by
  obtain ⟨r1, r2, r3, r4⟩ := handleRadio_ctl i.now i.packet s
  obtain ⟨t1, t2, t3, t4, t5, t6⟩ :=
    handleTimeouts_ctl i.now (handleRadio i.now i.packet s)
  have hb : handleButton i.now i.buttonLow
      (handleTimeouts i.now (handleRadio i.now i.packet s)) =
      handleTimeouts i.now (handleRadio i.now i.packet s) :=
    handleButton_noflag _ _ _ (by rw [t3, r3, hf])
  obtain ⟨e1, e2, e3, e4, e5, e6, e7⟩ := renderLEDs_ctl i.now
    (handleTimeouts i.now (handleRadio i.now i.packet s))
  simp only [loop, showIfDirty_fst, hb]
  refine ⟨?_, ?_, ?_⟩ <;> simp [e1, e2, e4, t1, t2, t3, r1, r2, r3, hf]

/-- Ticks cannot leave Diagnostic (nor re-toggle) while the press event stays
consumed: only a new interrupt can set `buttonPressFlag` again. -/
lemma runTicks_diag_consumed (tr : List TickIn) (s : RxState)
    (hd : s.inDiagnosticMode = true) (ht : s.inTestMode = false)
    (hf : s.buttonPressFlag = false) :
    (runTicks tr s).inDiagnosticMode = true ∧
    (runTicks tr s).inTestMode = false ∧
    (runTicks tr s).buttonPressFlag = false := by
  induction tr generalizing s with
  | nil => exact ⟨hd, ht, hf⟩
  | cons j tr ih =>
    obtain ⟨c1, c2, c3⟩ := loop_consumed j s hf
    simp only [runTicks, List.foldl_cons]
    exact ih ((loop j s).1) (c2.trans hd) (c1.trans ht) c3

/-! ## Claim C2 (corrected) -/

/-- C2, counterexample to the claim as stated.  A reachable run: packet with
`sequenceId = 3`, button press at 1300 held past 5 s (Diagnostic entry at the
6400 tick), a further identical packet at 6500 that re-stores `3` while in
Diagnostic, a new press at 6800 released before the 6900 tick.  That release
is a `ShortPress` processed from `Diagnostic` — yet the resulting
Diagnostic-to-Ready transition leaves `currentSequence = 3`: the
`if (inDiagnosticMode)` release branch only clears the mode flag and
`animationStep`; `currentSequence = 0` is executed only in the `Ready ↔ Test`
toggle branch. -/
theorem c2_counterexample :
    (runEvents [.tick ⟨1000, some ⟨1, 3⟩, false⟩, .press 1300,
      .tick ⟨6400, some ⟨2, 3⟩, true⟩, .tick ⟨6500, some ⟨3, 3⟩, true⟩,
      .press 6800]).rx.inDiagnosticMode = true ∧
    (runEvents [.tick ⟨1000, some ⟨1, 3⟩, false⟩, .press 1300,
      .tick ⟨6400, some ⟨2, 3⟩, true⟩, .tick ⟨6500, some ⟨3, 3⟩, true⟩,
      .press 6800]).rx.buttonPressFlag = true ∧
    (runEvents [.tick ⟨1000, some ⟨1, 3⟩, false⟩, .press 1300,
      .tick ⟨6400, some ⟨2, 3⟩, true⟩, .tick ⟨6500, some ⟨3, 3⟩, true⟩,
      .press 6800]).rx.currentSequence = 3 ∧
    (runEvents [.tick ⟨1000, some ⟨1, 3⟩, false⟩, .press 1300,
      .tick ⟨6400, some ⟨2, 3⟩, true⟩, .tick ⟨6500, some ⟨3, 3⟩, true⟩,
      .press 6800, .tick ⟨6900, some ⟨4, 3⟩, false⟩]).rx.inDiagnosticMode = false ∧
    (runEvents [.tick ⟨1000, some ⟨1, 3⟩, false⟩, .press 1300,
      .tick ⟨6400, some ⟨2, 3⟩, true⟩, .tick ⟨6500, some ⟨3, 3⟩, true⟩,
      .press 6800, .tick ⟨6900, some ⟨4, 3⟩, false⟩]).rx.inTestMode = false ∧
    (runEvents [.tick ⟨1000, some ⟨1, 3⟩, false⟩, .press 1300,
      .tick ⟨6400, some ⟨2, 3⟩, true⟩, .tick ⟨6500, some ⟨3, 3⟩, true⟩,
      .press 6800, .tick ⟨6900, some ⟨4, 3⟩, false⟩]).rx.currentSequence = 3 := by
  decide

/-- C2, amended: a `ShortPress` (pending press flag, button released) from
`Ready`/`Test` toggles `Ready ↔ Test`, forces `currentSequence := 0` and
resets `animationStep`; from `Diagnostic` it returns to the previous
non-diagnostic mode and resets `animationStep`, but leaves `currentSequence`
unchanged (it is NOT forced to `0` there). -/
theorem c2_amended (now : Nat) (s : RxState) (hf : s.buttonPressFlag = true) :
    (s.inDiagnosticMode = true → handleButton now false s =
      { s with inDiagnosticMode := false, animationStep := 0,
               buttonPressFlag := false }) ∧
    (s.inDiagnosticMode = false → handleButton now false s =
      { s with inTestMode := !s.inTestMode, currentSequence := 0,
               animationStep := 0, buttonPressFlag := false }) := by
  obtain ⟨tm, dm, cs, as1, lpt, lat, lan, bpf, bpt, fd, so, cp, cd⟩ := s
  constructor <;> intro hd <;> simp_all [handleButton]

/-- Witness for C2's amended theorem: a concrete `ShortPress` from Diagnostic
with stored sequence `4`. -/
theorem c2_amended_witness :
    handleButton 10 false
      { initRx with inDiagnosticMode := true, currentSequence := 4,
                    buttonPressFlag := true } =
    { { initRx with inDiagnosticMode := true, currentSequence := 4,
                    buttonPressFlag := true } with
        inDiagnosticMode := false, animationStep := 0, buttonPressFlag := false } :=
  (c2_amended 10 _ rfl).1 rfl

/-! ## Claim C3 (confirmed) -/

/-- A tick on which the held press crosses the 5 s threshold outside
Diagnostic: Diagnostic is entered, the sequence is forced to `0`, and the
press flag is consumed within the same iteration. -/
lemma loop_longhold (i : TickIn) (s : RxState) (hf : s.buttonPressFlag = true)
    (hl : i.buttonLow = true) (hd : s.inDiagnosticMode = false)
    (h5 : 5000 ≤ i.now - s.buttonPressTime) :
    (loop i s).1.inDiagnosticMode = true ∧ (loop i s).1.inTestMode = false ∧
    (loop i s).1.buttonPressFlag = false ∧ (loop i s).1.currentSequence = 0 := by
  obtain ⟨r1, r2, r3, r4⟩ := handleRadio_ctl i.now i.packet s
  obtain ⟨t1, t2, t3, t4, t5, t6⟩ :=
    handleTimeouts_ctl i.now (handleRadio i.now i.packet s)
  have hb : handleButton i.now i.buttonLow
      (handleTimeouts i.now (handleRadio i.now i.packet s)) =
      { handleTimeouts i.now (handleRadio i.now i.packet s) with
          inDiagnosticMode := true, inTestMode := false,
          currentSequence := 0, buttonPressFlag := false } := by
    rw [handleButton, if_pos (by rw [t3, r3, hf]), hl]
    rw [if_pos (And.intro (by rw [t2, r2, hd]) (by rw [t4, r4]; exact h5))]
    simp
  obtain ⟨e1, e2, e3, e4, e5, e6, e7⟩ := renderLEDs_ctl i.now
    ({ handleTimeouts i.now (handleRadio i.now i.packet s) with
        inDiagnosticMode := true, inTestMode := false,
        currentSequence := 0, buttonPressFlag := false })
  simp only [loop, showIfDirty_fst, hb]
  refine ⟨?_, ?_, ?_, ?_⟩ <;> simp [e1, e2, e3, e4]

/-- C3: gesture exclusivity of a held press crossing the 5000 ms threshold
while not in Diagnostic.
Part 1: on the confirming tick, the long-hold action (Diagnostic entry with
`currentSequence := 0`) takes effect and the press event is consumed at once.
Part 2: from any consumed-press Diagnostic state, any sequence of further
loop iterations — later ticks with the button still held as well as the
eventual release tick — leaves the mode flags untouched and emits no
`ShortPress` toggle, so the long-hold action is applied exactly once per
press.
Part 3: with the press flag consumed, the button handler is the identity, so
no gesture whatsoever is derived from the same press again. -/
theorem c3_long_hold_once :
    (∀ (i : TickIn) (s : RxState), s.buttonPressFlag = true → i.buttonLow = true →
      s.inDiagnosticMode = false → 5000 ≤ i.now - s.buttonPressTime →
      (loop i s).1.inDiagnosticMode = true ∧ (loop i s).1.inTestMode = false ∧
      (loop i s).1.buttonPressFlag = false ∧ (loop i s).1.currentSequence = 0) ∧
    (∀ (tr : List TickIn) (s : RxState), s.inDiagnosticMode = true →
      s.inTestMode = false → s.buttonPressFlag = false →
      (runTicks tr s).inDiagnosticMode = true ∧
      (runTicks tr s).inTestMode = false ∧
      (runTicks tr s).buttonPressFlag = false) ∧
    (∀ (now : Nat) (b : Bool) (s : RxState), s.buttonPressFlag = false →
      handleButton now b s = s) :=
  ⟨loop_longhold, runTicks_diag_consumed, handleButton_noflag⟩

/-- Witness for C3 at concrete inputs: a press begun at 100 ms confirmed on a
held tick at 5200 ms; a held tick at 6000 ms and a release tick at 6100 ms
from the consumed Diagnostic state; the identity of the handler on a
flag-clear state. -/
theorem c3_long_hold_once_witness :
    ((loop ⟨5200, none, true⟩
        { initRx with buttonPressFlag := true, buttonPressTime := 100,
                      currentSequence := 2 }).1.inDiagnosticMode = true ∧
      (loop ⟨5200, none, true⟩
        { initRx with buttonPressFlag := true, buttonPressTime := 100,
                      currentSequence := 2 }).1.inTestMode = false ∧
      (loop ⟨5200, none, true⟩
        { initRx with buttonPressFlag := true, buttonPressTime := 100,
                      currentSequence := 2 }).1.buttonPressFlag = false ∧
      (loop ⟨5200, none, true⟩
        { initRx with buttonPressFlag := true, buttonPressTime := 100,
                      currentSequence := 2 }).1.currentSequence = 0) ∧
    ((runTicks [⟨6000, none, true⟩, ⟨6100, none, false⟩]
        { initRx with inDiagnosticMode := true }).inDiagnosticMode = true ∧
      (runTicks [⟨6000, none, true⟩, ⟨6100, none, false⟩]
        { initRx with inDiagnosticMode := true }).inTestMode = false ∧
      (runTicks [⟨6000, none, true⟩, ⟨6100, none, false⟩]
        { initRx with inDiagnosticMode := true }).buttonPressFlag = false) ∧
    handleButton 7000 false initRx = initRx :=
  ⟨c3_long_hold_once.1 ⟨5200, none, true⟩
      { initRx with buttonPressFlag := true, buttonPressTime := 100,
                    currentSequence := 2 } rfl rfl rfl (by decide),
   c3_long_hold_once.2.1 [⟨6000, none, true⟩, ⟨6100, none, false⟩]
      { initRx with inDiagnosticMode := true } rfl rfl rfl,
   c3_long_hold_once.2.2 7000 false initRx rfl⟩

/-! ## Claim C4 (confirmed) -/

/-- C4: a packet carrying the sequence id already stored refreshes only
`lastPacketTime` — `lastActiveAnimationTime` is recorded solely inside the
`currentSequence != packet.sequenceId` branch — so once the stored sequence
has been non-zero for more than 30 minutes without a differing packet, the
idle cutoff forces it to `0` on the next tick even though identical packets
keep arriving. -/
theorem c4_idle_cutoff (s : RxState) (p : RadioPacket) (i : TickIn)
    (hpkt : i.packet = some p) (hsame : p.sequenceId = s.currentSequence)
    (hnz : s.currentSequence ≠ 0)
    (hidle : STRIP_TIMEOUT_MS < i.now - s.lastActiveAnimationTime) :
    handleRadio i.now (some p) s = { s with lastPacketTime := i.now } ∧
    (loop i s).1.currentSequence = 0 := by
  have hr : handleRadio i.now (some p) s = { s with lastPacketTime := i.now } := by
    simp [handleRadio, hsame]
  have ht : handleTimeouts i.now { s with lastPacketTime := i.now } =
      { s with lastPacketTime := i.now, currentSequence := 0,
               animationStep := 0 } := by
    simp only [handleTimeouts]
    split_ifs <;> simp_all
  refine ⟨hr, ?_⟩
  have hb := handleButton_seq_zero i.now i.buttonLow
    ({ s with lastPacketTime := i.now, currentSequence := 0, animationStep := 0 })
    (by simp)
  have hrr := (renderLEDs_ctl i.now (handleButton i.now i.buttonLow
    ({ s with lastPacketTime := i.now, currentSequence := 0,
              animationStep := 0 }))).2.2.1
  simp only [loop, hpkt, hr, ht, showIfDirty_fst]
  simp [hrr, hb]

/-- Witness for C4: sequence `2` held by identical packets, last refreshed at
time 0, next identical packet at 1800500 ms. -/
theorem c4_idle_cutoff_witness :
    handleRadio 1800500 (some ⟨9, 2⟩)
      { initRx with currentSequence := 2 } =
      { { initRx with currentSequence := 2 } with lastPacketTime := 1800500 } ∧
    (loop ⟨1800500, some ⟨9, 2⟩, false⟩
      { initRx with currentSequence := 2 }).1.currentSequence = 0 :=
  c4_idle_cutoff { initRx with currentSequence := 2 } ⟨9, 2⟩
    ⟨1800500, some ⟨9, 2⟩, false⟩ rfl rfl (by decide) (by decide)

/-! ## Claim C5 (confirmed) -/

lemma handleButton_inv (now : Nat) (b : Bool) (s : RxState)
    (h : s.inDiagnosticMode = true → s.inTestMode = false) :
    (handleButton now b s).inDiagnosticMode = true →
    (handleButton now b s).inTestMode = false := by
  simp only [handleButton]
  split_ifs <;> simp_all

/-- The mode flags at the end of a tick are those produced by the button
phase: the rendering phase and the flush never touch them. -/
lemma loop_modes (i : TickIn) (s : RxState) :
    (loop i s).1.inTestMode = (handleButton i.now i.buttonLow
      (handleTimeouts i.now (handleRadio i.now i.packet s))).inTestMode ∧
    (loop i s).1.inDiagnosticMode = (handleButton i.now i.buttonLow
      (handleTimeouts i.now (handleRadio i.now i.packet s))).inDiagnosticMode := by
  have hren := renderLEDs_ctl i.now (handleButton i.now i.buttonLow
    (handleTimeouts i.now (handleRadio i.now i.packet s)))
  simp only [loop, showIfDirty_fst]
  exact ⟨by simp [hren.1], by simp [hren.2.1]⟩

lemma loop_inv (i : TickIn) (s : RxState)
    (h : s.inDiagnosticMode = true → s.inTestMode = false) :
    (loop i s).1.inDiagnosticMode = true → (loop i s).1.inTestMode = false := by
  have hrad := handleRadio_ctl i.now i.packet s
  have htim := handleTimeouts_ctl i.now (handleRadio i.now i.packet s)
  have hbtn := handleButton_inv i.now i.buttonLow
    (handleTimeouts i.now (handleRadio i.now i.packet s))
    (by rw [htim.2.1, htim.1, hrad.2.1, hrad.1]; exact h)
  rw [(loop_modes i s).1, (loop_modes i s).2]
  exact hbtn

lemma evStep_inv (s : SysState) (e : Ev)
    (h : s.rx.inDiagnosticMode = true → s.rx.inTestMode = false) :
    (evStep s e).rx.inDiagnosticMode = true →
    (evStep s e).rx.inTestMode = false := by
  cases e with
  | tick i => exact loop_inv i s.rx h
  | press t =>
    simp only [evStep, button_isr]
    split_ifs <;> simp_all

/-- In every reachable state, Diagnostic implies the test flag is clear. -/
lemma runEvents_inv (es : List Ev) :
    (runEvents es).rx.inDiagnosticMode = true →
    (runEvents es).rx.inTestMode = false := by
  suffices h : ∀ (s : SysState), (s.rx.inDiagnosticMode = true → s.rx.inTestMode = false) →
      ((es.foldl evStep s).rx.inDiagnosticMode = true →
       (es.foldl evStep s).rx.inTestMode = false) by
    exact h initSys (by intro hc; simp [initSys, initRx] at hc)
  induction es with
  | nil => intro s hs; exact hs
  | cons e es ih =>
    intro s hs
    exact ih (evStep s e) (evStep_inv s e hs)

/-- A `ShortPress` release processed while in Diagnostic (with the test flag
clear) lands in Ready at the end of the tick. -/
lemma loop_release_diag (i : TickIn) (s : RxState) (hd : s.inDiagnosticMode = true)
    (ht : s.inTestMode = false) (hf : s.buttonPressFlag = true)
    (hl : i.buttonLow = false) :
    (loop i s).1.inDiagnosticMode = false ∧ (loop i s).1.inTestMode = false := by
  have hrad := handleRadio_ctl i.now i.packet s
  have htim := handleTimeouts_ctl i.now (handleRadio i.now i.packet s)
  have hfT : (handleTimeouts i.now (handleRadio i.now i.packet s)).buttonPressFlag = true := by
    rw [htim.2.2.1, hrad.2.2.1, hf]
  have hdT : (handleTimeouts i.now (handleRadio i.now i.packet s)).inDiagnosticMode = true := by
    rw [htim.2.1, hrad.2.1, hd]
  have htT : (handleTimeouts i.now (handleRadio i.now i.packet s)).inTestMode = false := by
    rw [htim.1, hrad.1, ht]
  have hb : handleButton i.now i.buttonLow
      (handleTimeouts i.now (handleRadio i.now i.packet s)) =
      { handleTimeouts i.now (handleRadio i.now i.packet s) with
          inDiagnosticMode := false, animationStep := 0,
          buttonPressFlag := false } := by
    simp [handleButton, hfT, hdT, hl]
  have hm := loop_modes i s
  constructor
  · rw [hm.2, hb]
  · rw [hm.1, hb]
    simpa using htT

/-- C5: (1) in every reachable state of the main loop the flags `inTestMode`
and `inDiagnosticMode` are never simultaneously true; (2) consequently, from
every reachable Diagnostic state a `ShortPress` (pending press flag, button
released this tick) transitions to Ready — never to Test — regardless of
which mode preceded Diagnostic. -/
theorem c5_diag_invariant :
    (∀ s : SysState, Reachable s →
      ¬(s.rx.inTestMode = true ∧ s.rx.inDiagnosticMode = true)) ∧
    (∀ (s : SysState) (i : TickIn), Reachable s →
      s.rx.inDiagnosticMode = true → s.rx.buttonPressFlag = true →
      i.buttonLow = false →
      (loop i s.rx).1.inDiagnosticMode = false ∧
      (loop i s.rx).1.inTestMode = false) := by
  constructor
  · rintro s ⟨es, hes⟩ ⟨h1, h2⟩
    subst hes
    have := runEvents_inv es h2
    rw [h1] at this
    simp at this
  · rintro s i ⟨es, hes⟩ hd hf hl
    have ht : s.rx.inTestMode = false := by subst hes; exact runEvents_inv es hd
    exact loop_release_diag i s.rx hd ht hf hl

/-- Witness for C5: the post-`setup` state is reachable and satisfies the
invariant; a concrete reachable Diagnostic state (press at 300 ms, Diagnostic
confirmed at the 5400 tick, new press at 5700 ms) released at 5800 ms lands
in Ready. -/
theorem c5_diag_invariant_witness :
    ¬(initSys.rx.inTestMode = true ∧ initSys.rx.inDiagnosticMode = true) ∧
    ((loop ⟨5800, none, false⟩ (runEvents [.press 300, .tick ⟨5400, none, true⟩,
        .press 5700]).rx).1.inDiagnosticMode = false ∧
     (loop ⟨5800, none, false⟩ (runEvents [.press 300, .tick ⟨5400, none, true⟩,
        .press 5700]).rx).1.inTestMode = false) :=
  ⟨c5_diag_invariant.1 initSys ⟨[], rfl⟩,
   c5_diag_invariant.2 (runEvents [.press 300, .tick ⟨5400, none, true⟩, .press 5700])
     ⟨5800, none, false⟩ ⟨[.press 300, .tick ⟨5400, none, true⟩, .press 5700], rfl⟩
     (by decide) (by decide) rfl⟩

/-! ## Claim C6 (confirmed) -/

/-- If the state reached after the radio phase is a fixed point of the
timeout phase, has no pending press and carries the original sequence, the
whole tick preserves `currentSequence`. -/
lemma loop_seq_preserved_aux (i : TickIn) (s t : RxState)
    (hradio : handleRadio i.now i.packet s = t)
    (htime : handleTimeouts i.now t = t)
    (hflag : t.buttonPressFlag = false)
    (hseq : t.currentSequence = s.currentSequence) :
    (loop i s).1.currentSequence = s.currentSequence := by
  simp only [loop, hradio, htime,
    handleButton_noflag i.now i.buttonLow t hflag, showIfDirty_fst]
  simp [(renderLEDs_ctl i.now t).2.2.1, hseq]

/-- C6.  Part 1, the per-tick rendering dispatch: Diagnostic always renders
Off and Test always renders Rainbow, regardless of the stored sequence;
otherwise the animation follows the `runSequence` table (0 Off, 1 Rainbow,
2 Chase, 3 Wipe, 4 Sparkle, 5 Cylon, anything else Off).
Part 2: across a tick on which no packet with a differing `sequenceId`
arrives, no button gesture is pending and neither timeout fires, the stored
`currentSequence` is unchanged. -/
theorem c6_dispatch_persistence :
    (∀ (now : Nat) (s : RxState),
      (s.inDiagnosticMode = true → renderLEDs now s = animationOff s) ∧
      (s.inDiagnosticMode = false → s.inTestMode = true →
        renderLEDs now s = animationRainbow now s) ∧
      (s.inDiagnosticMode = false → s.inTestMode = false →
        (s.currentSequence = 0 → renderLEDs now s = animationOff s) ∧
        (s.currentSequence = 1 → renderLEDs now s = animationRainbow now s) ∧
        (s.currentSequence = 2 → renderLEDs now s = animationChase now s) ∧
        (s.currentSequence = 3 → renderLEDs now s = animationWipe now s) ∧
        (s.currentSequence = 4 → renderLEDs now s = animationSparkle now s) ∧
        (s.currentSequence = 5 → renderLEDs now s = animationCylon now s) ∧
        (6 ≤ s.currentSequence → renderLEDs now s = animationOff s))) ∧
    (∀ (i : TickIn) (s : RxState),
      (i.packet = none ∨ ∃ p, i.packet = some p ∧ p.sequenceId = s.currentSequence) →
      s.buttonPressFlag = false →
      (i.packet = none → i.now - s.lastPacketTime ≤ PACKET_TIMEOUT_MS) →
      ¬(s.currentSequence ≠ 0 ∧ STRIP_TIMEOUT_MS < i.now - s.lastActiveAnimationTime) →
      (loop i s).1.currentSequence = s.currentSequence) := by
  constructor
  · intro now s
    refine ⟨fun hd => by simp [renderLEDs, hd],
            fun hd ht => by simp [renderLEDs, hd, ht], fun hd ht => ?_⟩
    refine ⟨fun h0 => by simp [renderLEDs, hd, ht, runSequence, h0],
            fun h1 => by simp [renderLEDs, hd, ht, runSequence, h1],
            fun h2 => by simp [renderLEDs, hd, ht, runSequence, h2],
            fun h3 => by simp [renderLEDs, hd, ht, runSequence, h3],
            fun h4 => by simp [renderLEDs, hd, ht, runSequence, h4],
            fun h5 => by simp [renderLEDs, hd, ht, runSequence, h5],
            fun h6 => ?_⟩
    obtain ⟨k, hk⟩ : ∃ k, s.currentSequence = k + 6 :=
      ⟨s.currentSequence - 6, by omega⟩
    simp only [renderLEDs, hd, ht, Bool.false_eq_true, if_false]
    unfold runSequence
    rw [hk]
    rfl
  · intro i s hpk hf hto hidle
    rcases hpk with hnone | ⟨p, hsome, hsame⟩
    · have hto' : ¬(PACKET_TIMEOUT_MS < i.now - s.lastPacketTime) :=
        not_lt.mpr (hto hnone)
      refine loop_seq_preserved_aux i s s (by rw [hnone]; rfl) ?_ hf rfl
      simp only [handleTimeouts]
      split_ifs <;> simp_all
    · have hr : handleRadio i.now i.packet s = { s with lastPacketTime := i.now } := by
        rw [hsome]; simp [handleRadio, hsame]
      refine loop_seq_preserved_aux i s _ hr ?_ (by simp [hf]) (by simp)
      simp only [handleTimeouts]
      split_ifs <;> simp_all

/-- Witness for C6: Diagnostic renders Off even with sequence `5` stored; an
out-of-table sequence `9` renders Off in Ready mode; a packet-free quiet tick
leaves the sequence untouched. -/
theorem c6_dispatch_persistence_witness :
    renderLEDs 0 { initRx with inDiagnosticMode := true, currentSequence := 5 } =
      animationOff { initRx with inDiagnosticMode := true, currentSequence := 5 } ∧
    renderLEDs 0 { initRx with currentSequence := 9 } =
      animationOff { initRx with currentSequence := 9 } ∧
    (loop ⟨100, none, false⟩ initRx).1.currentSequence = initRx.currentSequence :=
  ⟨(c6_dispatch_persistence.1 0 _).1 rfl,
   ((c6_dispatch_persistence.1 0 _).2.2 rfl rfl).2.2.2.2.2.2 (by decide),
   c6_dispatch_persistence.2 ⟨100, none, false⟩ initRx (Or.inl rfl) rfl
     (fun _ => by decide) (by decide)⟩

/-! ## Claim C7 (confirmed) -/

/-- A packet-free Diagnostic tick with a clean frame and a non-blank strip:
the Off rendering clears the strip, flushes exactly once, and leaves a
clean-frame, blank-strip Diagnostic state. -/
lemma loop_diag_flush (i : TickIn) (s : RxState) (hd : s.inDiagnosticMode = true)
    (hf : s.buttonPressFlag = false) (hp : i.packet = none)
    (hdirty : s.frameDirty = false) (hblank : s.stripIsOff = false) :
    (loop i s).2 = true ∧ (loop i s).1.inDiagnosticMode = true ∧
    (loop i s).1.buttonPressFlag = false ∧ (loop i s).1.frameDirty = false ∧
    (loop i s).1.stripIsOff = true := by
  have hT := handleTimeouts_ctl i.now s
  have hTf : (handleTimeouts i.now s).buttonPressFlag = false := by
    rw [hT.2.2.1, hf]
  have hTd : (handleTimeouts i.now s).inDiagnosticMode = true := by
    rw [hT.2.1, hd]
  have hTso : (handleTimeouts i.now s).stripIsOff = false := by
    rw [hT.2.2.2.2.2.2.2, hblank]
  have hren : renderLEDs i.now (handleTimeouts i.now s) =
      markAllOff (handleTimeouts i.now s) := by
    simp [renderLEDs, hTd, animationOff, hTso]
  simp only [loop, hp, handleRadio, handleButton_noflag i.now i.buttonLow _ hTf,
    hren, showIfDirty_fst, showIfDirty_snd, markAllOff]
  simp [hTd, hTf]

/-- A packet-free Diagnostic tick with a clean frame and an already-blank
strip renders Off without touching the frame, so no flush occurs. -/
lemma loop_diag_noflush (i : TickIn) (s : RxState) (hd : s.inDiagnosticMode = true)
    (hf : s.buttonPressFlag = false) (hp : i.packet = none)
    (hdirty : s.frameDirty = false) (hblank : s.stripIsOff = true) :
    (loop i s).2 = false := by
  have hT := handleTimeouts_ctl i.now s
  have hTf : (handleTimeouts i.now s).buttonPressFlag = false := by
    rw [hT.2.2.1, hf]
  have hTd : (handleTimeouts i.now s).inDiagnosticMode = true := by
    rw [hT.2.1, hd]
  have hTso : (handleTimeouts i.now s).stripIsOff = true := by
    rw [hT.2.2.2.2.2.2.2, hblank]
  have hTfd : (handleTimeouts i.now s).frameDirty = false := by
    rw [hT.2.2.2.2.2.2.1, hdirty]
  have hren : renderLEDs i.now (handleTimeouts i.now s) =
      handleTimeouts i.now s := by
    simp [renderLEDs, hTd, animationOff, hTso]
  simp only [loop, hp, handleRadio, handleButton_noflag i.now i.buttonLow _ hTf,
    hren, showIfDirty_snd]
  exact hTfd

/-- C7.  Part 1, the coalescing invariant of `showIfDirty`: a hardware flush
occurs iff `frameDirty` is set at flush time, the flag is cleared together
with the flush, and a flush-free call changes nothing.
Part 2: every loop iteration ends with `frameDirty = false`, and the tick
flushes iff the state reaching `showIfDirty` is dirty.
Part 3, output coalescing on the claim's example: two consecutive
packet-free ticks rendering Off (Diagnostic mode) starting from a clean
frame with a non-blank strip flush exactly once in total, on the first
tick's dirty transition. -/
theorem c7_flush_coalescing :
    (∀ s : RxState, (showIfDirty s).2 = s.frameDirty ∧
      (showIfDirty s).1.frameDirty = false ∧
      ((showIfDirty s).2 = false → (showIfDirty s).1 = s)) ∧
    (∀ (i : TickIn) (s : RxState), (loop i s).1.frameDirty = false ∧
      (loop i s).2 = (renderLEDs i.now (handleButton i.now i.buttonLow
        (handleTimeouts i.now (handleRadio i.now i.packet s)))).frameDirty) ∧
    (∀ (i1 i2 : TickIn) (s : RxState), s.inDiagnosticMode = true →
      s.buttonPressFlag = false → i1.packet = none → i2.packet = none →
      s.frameDirty = false → s.stripIsOff = false →
      (loop i1 s).2 = true ∧ (loop i2 (loop i1 s).1).2 = false) := by
  refine ⟨?_, ?_, ?_⟩
  · intro s
    unfold showIfDirty
    split_ifs <;> simp_all
  · intro i s
    constructor
    · rw [loop, showIfDirty_fst]
    · rw [loop, showIfDirty_snd]
  · intro i1 i2 s hd hf hp1 hp2 hdirty hblank
    obtain ⟨w1, w2, w3, w4, w5⟩ := loop_diag_flush i1 s hd hf hp1 hdirty hblank
    exact ⟨w1, loop_diag_noflush i2 (loop i1 s).1 w2 w3 hp2 w4 w5⟩

/-- Witness for C7 at concrete inputs: from a non-blank strip in Diagnostic,
two packet-free ticks flush once then not again; `showIfDirty` on the
post-`setup` state does not flush; a quiet tick ends clean. -/
theorem c7_flush_coalescing_witness :
    ((showIfDirty initRx).2 = initRx.frameDirty ∧
      (showIfDirty initRx).1.frameDirty = false ∧
      ((showIfDirty initRx).2 = false → (showIfDirty initRx).1 = initRx)) ∧
    ((loop ⟨50, none, false⟩ initRx).1.frameDirty = false ∧
      (loop ⟨50, none, false⟩ initRx).2 =
        (renderLEDs 50 (handleButton 50 false
          (handleTimeouts 50 (handleRadio 50 none initRx)))).frameDirty) ∧
    ((loop ⟨100, none, false⟩
        { initRx with inDiagnosticMode := true, stripIsOff := false }).2 = true ∧
      (loop ⟨200, none, false⟩
        (loop ⟨100, none, false⟩
          { initRx with inDiagnosticMode := true, stripIsOff := false }).1).2 = false) :=
  ⟨c7_flush_coalescing.1 initRx,
   c7_flush_coalescing.2.1 ⟨50, none, false⟩ initRx,
   c7_flush_coalescing.2.2 ⟨100, none, false⟩ ⟨200, none, false⟩
     { initRx with inDiagnosticMode := true, stripIsOff := false }
     rfl rfl rfl rfl rfl rfl⟩

/-! ## Claim C8 (confirmed) -/

/-- C8.  Part 1: one Setup-loop iteration keeps the candidate identifier in
`[1, 18]`, whether it continues or saves-and-reboots.
Part 2: a release observed while the previous sample was pressed (a confirmed
short tap) increments the candidate by exactly one, wrapping `18 → 1`.
Part 3: a press still held for more than 3000 ms saves the current candidate
and reboots.
Part 4: the persisted value read back after a restart equals the candidate
that was saved. -/
theorem c8_setup :
    (∀ (st : SetupState) (now : Nat) (isPressed : Bool),
      1 ≤ st.tempPropID → st.tempPropID ≤ 18 →
      1 ≤ setupResultID (setupTick now isPressed st) ∧
      setupResultID (setupTick now isPressed st) ≤ 18) ∧
    (∀ (st : SetupState) (now : Nat), st.lastIsPressed = true →
      1 ≤ st.tempPropID → st.tempPropID ≤ 18 →
      setupTick now false st = .continue
        ⟨if st.tempPropID = 18 then 1 else st.tempPropID + 1,
         st.pressStartTime, false⟩) ∧
    (∀ (st : SetupState) (now : Nat), st.lastIsPressed = true →
      3000 < now - st.pressStartTime →
      setupTick now true st = .saveAndReboot st.tempPropID) ∧
    (∀ (eeprom : Nat → Nat) (id : Nat), 1 ≤ id → id ≤ 18 →
      (loadPropID (savePropID eeprom id)).1 = id) := by
  refine ⟨?_, ?_, ?_, ?_⟩
  · intro st now ip h1 h2
    simp only [setupTick]
    split_ifs <;> simp [setupResultID] <;> omega
  · intro st now hl h1 h2
    obtain ⟨t, ps, lp⟩ := st
    simp only at hl h1 h2
    subst hl
    have hmod : (t + 1) % 256 = t + 1 := Nat.mod_eq_of_lt (by omega)
    simp only [setupTick, hmod]
    norm_num
    rcases eq_or_ne t 18 with h | h
    · subst h; norm_num
    · rw [if_neg (by omega), if_neg h]
  · intro st now hl hh
    simp [setupTick, hl, hh]
  · intro eeprom id h1 h2
    have hm : id % 256 = id := Nat.mod_eq_of_lt (by omega)
    have hs : savePropID eeprom id 0 = id := by simp [savePropID, hm]
    simp only [loadPropID, hs]
    rw [if_neg (by omega)]

/-- Witness for C8 at concrete inputs: a tap at candidate 18 wraps to 1; a
hold begun at 500 ms still pressed at 4000 ms saves candidate 7; reading the
EEPROM back after saving 7 yields 7; the bounds are preserved on a quiet
iteration. -/
theorem c8_setup_witness :
    setupTick 100 false ⟨18, 40, true⟩ = .continue ⟨1, 40, false⟩ ∧
    setupTick 4000 true ⟨7, 500, true⟩ = .saveAndReboot 7 ∧
    (loadPropID (savePropID (fun _ => 0) 7)).1 = 7 ∧
    (1 ≤ setupResultID (setupTick 100 false ⟨18, 40, true⟩) ∧
      setupResultID (setupTick 100 false ⟨18, 40, true⟩) ≤ 18) :=
  ⟨by have h := c8_setup.2.1 ⟨18, 40, true⟩ 100 rfl (by decide) (by decide)
      simpa using h,
   c8_setup.2.2.1 ⟨7, 500, true⟩ 4000 rfl (by decide),
   c8_setup.2.2.2 (fun _ => 0) 7 (by decide) (by decide),
   c8_setup.1 ⟨18, 40, true⟩ 100 false (by decide) (by decide)⟩

/-! ## Claim C10 (confirmed) -/

/-- C10: the radio handler stores every received `sequenceId` verbatim as
`currentSequence` — including values outside `0..5` such as `200` — with no
validation, clamping or rejection anywhere; when the value differs from the
stored one the animation progress is reset; and the rendering dispatch for
any out-of-table value falls through to Off. -/
theorem c10_verbatim :
    (∀ (now : Nat) (p : RadioPacket) (s : RxState),
      (handleRadio now (some p) s).currentSequence = p.sequenceId) ∧
    (∀ (now : Nat) (p : RadioPacket) (s : RxState),
      s.currentSequence ≠ p.sequenceId →
      (handleRadio now (some p) s).animationStep = 0) ∧
    (∀ (now : Nat) (s : RxState), 6 ≤ s.currentSequence →
      runSequence now s = animationOff s) := by
  refine ⟨?_, ?_, ?_⟩
  · intro now p s
    simp only [handleRadio, markDirty]
    split_ifs <;> simp_all
  · intro now p s hne
    simp only [handleRadio, markDirty]
    split_ifs <;> simp_all
  · intro now s h6
    obtain ⟨k, hk⟩ : ∃ k, s.currentSequence = k + 6 :=
      ⟨s.currentSequence - 6, by omega⟩
    unfold runSequence
    rw [hk]
    rfl

/-- Witness for C10: a packet carrying `sequenceId = 200` received on the
fresh state is stored verbatim, resets the animation cursor, and a state
holding `200` renders Off. -/
theorem c10_verbatim_witness :
    (handleRadio 100 (some ⟨1, 200⟩) initRx).currentSequence = 200 ∧
    (handleRadio 100 (some ⟨1, 200⟩) initRx).animationStep = 0 ∧
    runSequence 100 { initRx with currentSequence := 200 } =
      animationOff { initRx with currentSequence := 200 } :=
  ⟨c10_verbatim.1 100 ⟨1, 200⟩ initRx,
   c10_verbatim.2.1 100 ⟨1, 200⟩ initRx (by decide),
   c10_verbatim.2.2 100 { initRx with currentSequence := 200 } (by decide)⟩

end Receiver
